import Mathlib

/-!
Verification of the local configuration store and command flow of
`aws-vpc-hello-world-setup` (`main.py`), shallowly embedded in Lean 4.

The CLI commands (`configure-vpc`, `remove-vpc`, `configure-subnet`,
`remove-subnet`) are modelled as pure functions over
  * an abstract remote environment `Env` answering cloud API calls, and
  * a file system `Fs` mapping file names to file contents;
each command returns its result, the ordered list of remote calls it
issued, and the resulting file system.

The modules `configs` and `commands` of the repository are not part of
the given sources; `commands.*` functions are opaque remote calls (events
of the trace), while the record classes `VpcConfig` / `SubnetConfig` and
their `from_config` deserializers are modelled from the spec where noted.
-/

/-- Python `str.lower()` over the character list (ASCII-faithful, which
suffices for the resource-type tags `"vpc"` and `"subnet"`). -/
def pyLower (s : String) : String :=
  ⟨s.data.map Char.toLower⟩

/-- Python `str.replace('-', '_')`: every hyphen becomes an underscore. -/
def pyReplaceHyphen (s : String) : String :=
  ⟨s.data.map fun c => if c = '-' then '_' else c⟩

/-- `main.py` line 164–165:
`f"{resource_type.lower()}_{resource_name.replace('-', '_')}_config.json"`. -/
def _parse_config_file_name (resource_name : String) (resource_type : String) : String :=
  pyLower resource_type ++ "_" ++ pyReplaceHyphen resource_name ++ "_config.json"

/-- Python `str.startswith(p)`: character-level prefix test. -/
def pyStartswith (s p : String) : Bool := p.data.isPrefixOf s.data

/-- Decimal value of a non-empty all-digit character list. -/
def digitsToNat (cs : List Char) : Option Nat :=
  if cs ≠ [] ∧ cs.all Char.isDigit then
    some (cs.foldl (fun acc c => acc * 10 + (c.toNat - 48)) 0)
  else none

/-- Python `int(s)`: `some` when the string is a decimal integer literal
(optionally negated), `none` when `int()` would raise `ValueError`. -/
def pyToInt? (s : String) : Option Int :=
  match s.data with
  | '-' :: rest => (digitsToNat rest).map fun n => -(n : Int)
  | cs => (digitsToNat cs).map fun n => (n : Int)

/-- A JSON value, as produced by `json.dump` / consumed by `json.load`
on the flat record dictionaries this tool persists. -/
inductive Json where
  | str (s : String)
  | num (n : Int)
  | bool (b : Bool)
  | null
  | obj (fields : List (String × Json))

/-- The bytes stored in a config file: either text that parses as JSON,
or text that does not (`json.load` raises a decode error on the latter). -/
inductive FileData where
  | json (j : Json)
  | malformed

/-- The local `params` directory: a map from file name to file content. -/
def Fs : Type := String → Option FileData

/-- Overwrite (or create) a file, as `open(path, "w")` + `json.dump`. -/
def writeFile (fs : Fs) (name : String) (d : FileData) : Fs :=
  fun m => if m = name then some d else fs m

/-- Delete a file, as `os.remove`. -/
def removeFile (fs : Fs) (name : String) : Fs :=
  fun m => if m = name then none else fs m

/-- The error kinds of the spec (§7): `NotFoundError` (missing config
file), `MalformedConfigError` (present but unparsable / wrong shape),
`RemoteAPIError` (opaque passthrough from the cloud client).
`invalidParameter` covers rejection of an out-of-range or non-integer
`cidr_substitute` (spec §3 constrains it to an integer in 5–254 without
naming the error kind). -/
inductive Err where
  | notFoundError
  | malformedConfigError
  | remoteAPIError (msg : String)
  | invalidParameter
  deriving DecidableEq, Repr

/-- The VPC Record. Field names follow the attributes set in `main.py`
(`configure_vpc` lines 39–59); identifiers are absent (`none`) until the
corresponding create call succeeds. -/
structure VpcConfig where
  region : String
  vpc_cidr : String
  vpc_name : String
  sg_name : String
  igw_name : String
  vpc_id : Option String := none
  sg_id : Option String := none
  igw_id : Option String := none
  deriving DecidableEq, Repr

/-- The Subnet Record. Modelled from the spec: `configs.SubnetConfig` is
not among the given sources. Per spec §3 it embeds the parent VPC
Record's fields at creation time (flat — `remove_subnet` reads
`subnet_config.region` directly), holds the constructor arguments passed
in `main.py` lines 111–117, with `cidr_substitute` an integer constrained
to 5–254, and the identifiers assigned in lines 121/125/129. -/
structure SubnetConfig where
  region : String
  vpc_cidr : String
  vpc_name : String
  sg_name : String
  igw_name : String
  vpc_id : Option String := none
  sg_id : Option String := none
  igw_id : Option String := none
  subnet_name : String
  cidr_substitute : Int
  az_postfix : String
  rt_name : String
  subnet_id : Option String := none
  rt_id : Option String := none
  subnet_rt_association_id : Option String := none
  deriving DecidableEq, Repr

/-- Serialize an optional identifier the way `json.dump` serializes the
attribute's value (`None` becomes JSON `null`). -/
def optJson : Option String → Json
  | some s => Json.str s
  | none => Json.null

/-- `json.dump(vpc_config.__dict__, file)`: the record's attributes as a
flat JSON object (`main.py` line 65). -/
def vpcConfigToJson (c : VpcConfig) : Json :=
  Json.obj
    [("region", Json.str c.region), ("vpc_cidr", Json.str c.vpc_cidr),
     ("vpc_name", Json.str c.vpc_name), ("sg_name", Json.str c.sg_name),
     ("igw_name", Json.str c.igw_name), ("vpc_id", optJson c.vpc_id),
     ("sg_id", optJson c.sg_id), ("igw_id", optJson c.igw_id)]

/-- `json.dump(subnet_config.__dict__, file)` (`main.py` line 135). -/
def subnetConfigToJson (c : SubnetConfig) : Json :=
  Json.obj
    [("region", Json.str c.region), ("vpc_cidr", Json.str c.vpc_cidr),
     ("vpc_name", Json.str c.vpc_name), ("sg_name", Json.str c.sg_name),
     ("igw_name", Json.str c.igw_name), ("vpc_id", optJson c.vpc_id),
     ("sg_id", optJson c.sg_id), ("igw_id", optJson c.igw_id),
     ("subnet_name", Json.str c.subnet_name),
     ("cidr_substitute", Json.num c.cidr_substitute),
     ("az_postfix", Json.str c.az_postfix), ("rt_name", Json.str c.rt_name),
     ("subnet_id", optJson c.subnet_id), ("rt_id", optJson c.rt_id),
     ("subnet_rt_association_id", optJson c.subnet_rt_association_id)]

/-- Look up a required string field of a JSON object. -/
def getStr (kvs : List (String × Json)) (k : String) : Option String :=
  match kvs.lookup k with
  | some (Json.str s) => some s
  | _ => none

/-- Look up a required integer field of a JSON object. -/
def getNum (kvs : List (String × Json)) (k : String) : Option Int :=
  match kvs.lookup k with
  | some (Json.num n) => some n
  | _ => none

/-- Modelled from the spec: `configs.VpcConfig.from_config` is not among
the given sources. Per spec §4.1 the read operation deserializes the flat
JSON object into a VPC Record and fails when the structure does not match
the expected record shape; persisted records are fully provisioned, so
every field (identifiers included) must be present as a string. -/
def VpcConfig.from_config (j : Json) : Option VpcConfig :=
  match j with
  | Json.obj kvs => do
    let region ← getStr kvs "region"
    let vpc_cidr ← getStr kvs "vpc_cidr"
    let vpc_name ← getStr kvs "vpc_name"
    let sg_name ← getStr kvs "sg_name"
    let igw_name ← getStr kvs "igw_name"
    let vpc_id ← getStr kvs "vpc_id"
    let sg_id ← getStr kvs "sg_id"
    let igw_id ← getStr kvs "igw_id"
    pure { region, vpc_cidr, vpc_name, sg_name, igw_name,
           vpc_id := some vpc_id, sg_id := some sg_id, igw_id := some igw_id }
  | _ => none

/-- Modelled from the spec: `configs.SubnetConfig.from_config` is not
among the given sources; same deserialization discipline as
`VpcConfig.from_config`, over the Subnet Record's fields. -/
def SubnetConfig.from_config (j : Json) : Option SubnetConfig :=
  match j with
  | Json.obj kvs => do
    let region ← getStr kvs "region"
    let vpc_cidr ← getStr kvs "vpc_cidr"
    let vpc_name ← getStr kvs "vpc_name"
    let sg_name ← getStr kvs "sg_name"
    let igw_name ← getStr kvs "igw_name"
    let vpc_id ← getStr kvs "vpc_id"
    let sg_id ← getStr kvs "sg_id"
    let igw_id ← getStr kvs "igw_id"
    let subnet_name ← getStr kvs "subnet_name"
    let cidr_substitute ← getNum kvs "cidr_substitute"
    let az_postfix ← getStr kvs "az_postfix"
    let rt_name ← getStr kvs "rt_name"
    let subnet_id ← getStr kvs "subnet_id"
    let rt_id ← getStr kvs "rt_id"
    let subnet_rt_association_id ← getStr kvs "subnet_rt_association_id"
    pure { region, vpc_cidr, vpc_name, sg_name, igw_name,
           vpc_id := some vpc_id, sg_id := some sg_id, igw_id := some igw_id,
           subnet_name, cidr_substitute, az_postfix, rt_name,
           subnet_id := some subnet_id, rt_id := some rt_id,
           subnet_rt_association_id := some subnet_rt_association_id }
  | _ => none

/-- A loaded config record: `_load_config` returns a `VpcConfig` for file
names beginning with `vpc`, a `SubnetConfig` for those beginning with
`subnet`, and (implicitly) `None` otherwise. -/
inductive Config where
  | vpc (c : VpcConfig)
  | subnet (c : SubnetConfig)
  deriving DecidableEq, Repr

/-- `main.py` lines 168–176. `open(config_path, "r")` on a missing file
raises `NotFoundError`; `json.load` on undecodable text, or a
`from_config` shape mismatch, raises `MalformedConfigError` (spec §4.1,
§7 — the shape check itself is modelled from the spec, since `configs`
is not among the given sources). -/
def _load_config (fs : Fs) (config_file_name : String) : Except Err (Option Config) :=
  match fs config_file_name with
  | none => Except.error Err.notFoundError
  | some FileData.malformed => Except.error Err.malformedConfigError
  | some (FileData.json j) =>
    if pyStartswith config_file_name "vpc" then
      match VpcConfig.from_config j with
      | some c => Except.ok (some (Config.vpc c))
      | none => Except.error Err.malformedConfigError
    else if pyStartswith config_file_name "subnet" then
      match SubnetConfig.from_config j with
      | some c => Except.ok (some (Config.subnet c))
      | none => Except.error Err.malformedConfigError
    else
      Except.ok none

/-- One remote (cloud API) call issued through the `commands` module.
Each constructor records the full record value passed to the call, so a
trace shows exactly which identifiers were already captured when the
call was made. -/
inductive RemoteCall where
  | create_vpc (cfg : VpcConfig)
  | create_vpc_security_group (cfg : VpcConfig)
  | create_internet_gateway (cfg : VpcConfig)
  | delete_internet_gateway (cfg : VpcConfig)
  | delete_security_group (cfg : VpcConfig)
  | delete_vpc (cfg : VpcConfig)
  | create_subnet (cfg : SubnetConfig)
  | create_route_table (cfg : SubnetConfig) (is_public : Bool)
  | create_subnet_route_table_association (cfg : SubnetConfig)
  | delete_subnet_route_table_association (cfg : SubnetConfig)
  | delete_route_table (cfg : SubnetConfig)
  | delete_subnet (cfg : SubnetConfig)
  deriving DecidableEq, Repr

/-- The cloud API environment: answers each remote call with the created
resource's identifier (create calls), a don't-care value (delete calls),
or a provider error message. -/
def Env : Type := RemoteCall → Except String String

/-- Outcome of one command invocation: its result, the ordered trace of
remote calls issued, and the file system after the command. -/
structure CmdOut (α : Type) where
  result : Except Err α
  calls : List RemoteCall
  fs : Fs

/-- `configure-vpc` (`main.py` lines 31–65): build the record, create the
VPC, then the security group, then the internet gateway — capturing each
returned identifier into the record before the next call — and finally
serialize the record to `params/vpc_<name>_config.json`. -/
def configure_vpc (env : Env) (fs : Fs)
    (region vpc_cidr vpc_name sg_name igw_name : String) : CmdOut VpcConfig :=
  let cfg0 : VpcConfig := { region, vpc_cidr, vpc_name, sg_name, igw_name }
  match env (RemoteCall.create_vpc cfg0) with
  | Except.error e =>
    ⟨Except.error (Err.remoteAPIError e), [RemoteCall.create_vpc cfg0], fs⟩
  | Except.ok vpc_id =>
  let cfg1 := { cfg0 with vpc_id := some vpc_id }
  match env (RemoteCall.create_vpc_security_group cfg1) with
  | Except.error e =>
    ⟨Except.error (Err.remoteAPIError e),
     [RemoteCall.create_vpc cfg0, RemoteCall.create_vpc_security_group cfg1], fs⟩
  | Except.ok sg_id =>
  let cfg2 := { cfg1 with sg_id := some sg_id }
  match env (RemoteCall.create_internet_gateway cfg2) with
  | Except.error e =>
    ⟨Except.error (Err.remoteAPIError e),
     [RemoteCall.create_vpc cfg0, RemoteCall.create_vpc_security_group cfg1,
      RemoteCall.create_internet_gateway cfg2], fs⟩
  | Except.ok igw_id =>
  let cfg3 := { cfg2 with igw_id := some igw_id }
  let name := _parse_config_file_name vpc_name "vpc"
  ⟨Except.ok cfg3,
   [RemoteCall.create_vpc cfg0, RemoteCall.create_vpc_security_group cfg1,
    RemoteCall.create_internet_gateway cfg2],
   writeFile fs name (FileData.json (vpcConfigToJson cfg3))⟩

/-- `remove-vpc` (`main.py` lines 72–91): load the record from the VPC's
config file, then detach/delete the internet gateway, delete the security
group, delete the VPC, and only then remove the config file. -/
def remove_vpc (env : Env) (fs : Fs) (vpc_name : String) : CmdOut Unit :=
  let name := _parse_config_file_name vpc_name "vpc"
  match _load_config fs name with
  | Except.error e => ⟨Except.error e, [], fs⟩
  | Except.ok cfg? =>
  match cfg? with
  | some (Config.vpc cfg) =>
    (match env (RemoteCall.delete_internet_gateway cfg) with
     | Except.error e =>
       ⟨Except.error (Err.remoteAPIError e),
        [RemoteCall.delete_internet_gateway cfg], fs⟩
     | Except.ok _ =>
     match env (RemoteCall.delete_security_group cfg) with
     | Except.error e =>
       ⟨Except.error (Err.remoteAPIError e),
        [RemoteCall.delete_internet_gateway cfg,
         RemoteCall.delete_security_group cfg], fs⟩
     | Except.ok _ =>
     match env (RemoteCall.delete_vpc cfg) with
     | Except.error e =>
       ⟨Except.error (Err.remoteAPIError e),
        [RemoteCall.delete_internet_gateway cfg,
         RemoteCall.delete_security_group cfg, RemoteCall.delete_vpc cfg], fs⟩
     | Except.ok _ =>
       ⟨Except.ok (),
        [RemoteCall.delete_internet_gateway cfg,
         RemoteCall.delete_security_group cfg, RemoteCall.delete_vpc cfg],
        removeFile fs name⟩)
  -- unreachable: a name produced with type tag "vpc" starts with "vpc",
  -- so a successful load yields a VPC record
  | _ => ⟨Except.error Err.malformedConfigError, [], fs⟩

/-- Modelled from the spec: the `configs.SubnetConfig` constructor is not
among the given sources. It embeds the loaded parent VPC Record's fields
(spec §3), stores the constructor arguments of `main.py` lines 111–117,
and enforces that `cidr_substitute` — passed as a string on the CLI — is
an integer constrained to 5–254 (spec §3 and the option help text
"integer between 5 and 254"). -/
def SubnetConfig.mk_checked (vpc_config : VpcConfig)
    (subnet_name cidr_substitute az_postfix rt_name : String) :
    Except Err SubnetConfig :=
  match pyToInt? cidr_substitute with
  | none => Except.error Err.invalidParameter
  | some n =>
    if 5 ≤ n ∧ n ≤ 254 then
      Except.ok
        { region := vpc_config.region, vpc_cidr := vpc_config.vpc_cidr,
          vpc_name := vpc_config.vpc_name, sg_name := vpc_config.sg_name,
          igw_name := vpc_config.igw_name, vpc_id := vpc_config.vpc_id,
          sg_id := vpc_config.sg_id, igw_id := vpc_config.igw_id,
          subnet_name, cidr_substitute := n, az_postfix, rt_name }
    else Except.error Err.invalidParameter

/-- `configure-subnet` (`main.py` lines 98–135): load the parent VPC's
record, build the subnet record, create the subnet, then the route table,
then the subnet/route-table association — capturing each identifier
before the next call — and serialize the record to
`params/subnet_<name>_config.json`. -/
def configure_subnet (env : Env) (fs : Fs)
    (vpc_name subnet_name cidr_substitute availability_zone_postfix
     route_table_name : String) (is_public : Bool) : CmdOut SubnetConfig :=
  let vpc_file := _parse_config_file_name vpc_name "vpc"
  match _load_config fs vpc_file with
  | Except.error e => ⟨Except.error e, [], fs⟩
  | Except.ok cfg? =>
  match cfg? with
  | some (Config.vpc vpc_config) =>
    (match SubnetConfig.mk_checked vpc_config subnet_name cidr_substitute
        availability_zone_postfix route_table_name with
     | Except.error e => ⟨Except.error e, [], fs⟩
     | Except.ok sc0 =>
     match env (RemoteCall.create_subnet sc0) with
     | Except.error e =>
       ⟨Except.error (Err.remoteAPIError e), [RemoteCall.create_subnet sc0], fs⟩
     | Except.ok subnet_id =>
     let sc1 := { sc0 with subnet_id := some subnet_id }
     match env (RemoteCall.create_route_table sc1 is_public) with
     | Except.error e =>
       ⟨Except.error (Err.remoteAPIError e),
        [RemoteCall.create_subnet sc0,
         RemoteCall.create_route_table sc1 is_public], fs⟩
     | Except.ok rt_id =>
     let sc2 := { sc1 with rt_id := some rt_id }
     match env (RemoteCall.create_subnet_route_table_association sc2) with
     | Except.error e =>
       ⟨Except.error (Err.remoteAPIError e),
        [RemoteCall.create_subnet sc0,
         RemoteCall.create_route_table sc1 is_public,
         RemoteCall.create_subnet_route_table_association sc2], fs⟩
     | Except.ok association_id =>
     let sc3 := { sc2 with subnet_rt_association_id := some association_id }
     let name := _parse_config_file_name subnet_name "subnet"
     ⟨Except.ok sc3,
      [RemoteCall.create_subnet sc0,
       RemoteCall.create_route_table sc1 is_public,
       RemoteCall.create_subnet_route_table_association sc2],
      writeFile fs name (FileData.json (subnetConfigToJson sc3))⟩)
  -- unreachable: a name produced with type tag "vpc" starts with "vpc"
  | _ => ⟨Except.error Err.malformedConfigError, [], fs⟩

/-- `remove-subnet` (`main.py` lines 142–161): load the record from the
subnet's config file, then delete the route-table association, delete the
route table, delete the subnet, and only then remove the config file. -/
def remove_subnet (env : Env) (fs : Fs) (subnet_name : String) : CmdOut Unit :=
  let name := _parse_config_file_name subnet_name "subnet"
  match _load_config fs name with
  | Except.error e => ⟨Except.error e, [], fs⟩
  | Except.ok cfg? =>
  match cfg? with
  | some (Config.subnet cfg) =>
    (match env (RemoteCall.delete_subnet_route_table_association cfg) with
     | Except.error e =>
       ⟨Except.error (Err.remoteAPIError e),
        [RemoteCall.delete_subnet_route_table_association cfg], fs⟩
     | Except.ok _ =>
     match env (RemoteCall.delete_route_table cfg) with
     | Except.error e =>
       ⟨Except.error (Err.remoteAPIError e),
        [RemoteCall.delete_subnet_route_table_association cfg,
         RemoteCall.delete_route_table cfg], fs⟩
     | Except.ok _ =>
     match env (RemoteCall.delete_subnet cfg) with
     | Except.error e =>
       ⟨Except.error (Err.remoteAPIError e),
        [RemoteCall.delete_subnet_route_table_association cfg,
         RemoteCall.delete_route_table cfg, RemoteCall.delete_subnet cfg], fs⟩
     | Except.ok _ =>
       ⟨Except.ok (),
        [RemoteCall.delete_subnet_route_table_association cfg,
         RemoteCall.delete_route_table cfg, RemoteCall.delete_subnet cfg],
        removeFile fs name⟩)
  -- unreachable: a name produced with type tag "subnet" starts with "subnet"
  | _ => ⟨Except.error Err.malformedConfigError, [], fs⟩

/-- Which remote resource a call targets (used to compare creation and
removal order). -/
def RemoteCall.target : RemoteCall → String
  | RemoteCall.create_vpc _ => "vpc"
  | RemoteCall.delete_vpc _ => "vpc"
  | RemoteCall.create_vpc_security_group _ => "security_group"
  | RemoteCall.delete_security_group _ => "security_group"
  | RemoteCall.create_internet_gateway _ => "internet_gateway"
  | RemoteCall.delete_internet_gateway _ => "internet_gateway"
  | RemoteCall.create_subnet _ => "subnet"
  | RemoteCall.delete_subnet _ => "subnet"
  | RemoteCall.create_route_table _ _ => "route_table"
  | RemoteCall.delete_route_table _ => "route_table"
  | RemoteCall.create_subnet_route_table_association _ => "route_table_association"
  | RemoteCall.delete_subnet_route_table_association _ => "route_table_association"

/-- An empty `params` directory. -/
def emptyFs : Fs := fun _ => none

/-- An environment where every remote call succeeds. -/
def okEnv : Env := fun _ => Except.ok "id-0"

/-- An environment where every remote call fails. -/
def errEnv : Env := fun _ => Except.error "boom"

/-- A fully populated sample VPC Record. -/
def sampleVpcConfig : VpcConfig :=
  { region := "ap-northeast-2", vpc_cidr := "172.16.0.0/16",
    vpc_name := "hello-world", sg_name := "hello-sg", igw_name := "hello-igw",
    vpc_id := some "vpc-0", sg_id := some "sg-0", igw_id := some "igw-0" }

/-- A fully populated sample Subnet Record. -/
def sampleSubnetConfig : SubnetConfig :=
  { region := "ap-northeast-2", vpc_cidr := "172.16.0.0/16",
    vpc_name := "hello-world", sg_name := "hello-sg", igw_name := "hello-igw",
    vpc_id := some "vpc-0", sg_id := some "sg-0", igw_id := some "igw-0",
    subnet_name := "hello-subnet", cidr_substitute := 10, az_postfix := "a",
    rt_name := "hello-rt", subnet_id := some "subnet-0", rt_id := some "rtb-0",
    subnet_rt_association_id := some "rtbassoc-0" }

/-- The sample Subnet Record as first constructed, before any create
call has returned an identifier. -/
def sampleSubnetBase : SubnetConfig :=
  { region := "ap-northeast-2", vpc_cidr := "172.16.0.0/16",
    vpc_name := "hello-world", sg_name := "hello-sg", igw_name := "hello-igw",
    vpc_id := some "vpc-0", sg_id := some "sg-0", igw_id := some "igw-0",
    subnet_name := "hello-subnet", cidr_substitute := 10, az_postfix := "a",
    rt_name := "hello-rt" }

/-- A `params` directory holding the two sample records at their
computed file paths. -/
def sampleFs : Fs :=
  writeFile
    (writeFile emptyFs (_parse_config_file_name "hello-world" "vpc")
      (FileData.json (vpcConfigToJson sampleVpcConfig)))
    (_parse_config_file_name "hello-subnet" "subnet")
    (FileData.json (subnetConfigToJson sampleSubnetConfig))

/-! ## Helper lemmas -/

theorem data_append_eq (s t : String) : (s ++ t).data = s.data ++ t.data := rfl

theorem eq_of_data_eq {s t : String} (h : s.data = t.data) : s = t := by
  cases s; cases t; exact congrArg String.mk h

/-- Cancellation for string concatenation with a fixed head and tail. -/
theorem append_middle_cancel {p x y s : String}
    (h : p ++ x ++ s = p ++ y ++ s) : x = y := by
  have hd : p.data ++ x.data ++ s.data = p.data ++ y.data ++ s.data := by
    have hc := congrArg String.data h
    simpa [data_append_eq] using hc
  exact eq_of_data_eq (List.append_cancel_left (List.append_cancel_right hd))

theorem fname_vpc_startsWith (n : String) :
    pyStartswith (_parse_config_file_name n "vpc") "vpc" = true := by
  have h : pyLower "vpc" = "vpc" := by decide
  simp [_parse_config_file_name, h, pyStartswith, List.isPrefixOf]

theorem fname_subnet_startsWith (n : String) :
    pyStartswith (_parse_config_file_name n "subnet") "subnet" = true := by
  have h : pyLower "subnet" = "subnet" := by decide
  simp [_parse_config_file_name, h, pyStartswith, List.isPrefixOf]

theorem fname_subnet_not_vpc (n : String) :
    pyStartswith (_parse_config_file_name n "subnet") "vpc" = false := by
  have h : pyLower "subnet" = "subnet" := by decide
  simp [_parse_config_file_name, h, pyStartswith, List.isPrefixOf]

/-- A name that begins with `subnet` does not begin with `vpc`. -/
theorem startsWith_subnet_not_vpc {name : String}
    (h : pyStartswith name "subnet" = true) :
    pyStartswith name "vpc" = false := by
  unfold pyStartswith at h ⊢
  cases hd : name.data with
  | nil => rw [hd] at h; simp [List.isPrefixOf] at h
  | cons c rest =>
    rw [hd] at h
    show List.isPrefixOf "vpc".data (c :: rest) = false
    rw [show "subnet".data = 's' :: "ubnet".data from rfl] at h
    rw [show "vpc".data = 'v' :: "pc".data from rfl]
    simp [List.isPrefixOf] at h ⊢
    intro hc
    exact absurd (hc.trans h.1.symm) (by decide)

/-- Deserializing the serialized form of a fully populated VPC Record
recovers the record. -/
theorem vpc_from_config_after_toJson (c : VpcConfig) (a b d : String)
    (h1 : c.vpc_id = some a) (h2 : c.sg_id = some b) (h3 : c.igw_id = some d) :
    VpcConfig.from_config (vpcConfigToJson c) = some c := by
  cases c with
  | mk region vpc_cidr vpc_name sg_name igw_name vpc_id sg_id igw_id =>
    cases h1; cases h2; cases h3
    simp [VpcConfig.from_config, vpcConfigToJson, getStr, optJson, List.lookup]

/-- Deserializing the serialized form of a fully populated Subnet Record
recovers the record. -/
theorem subnet_from_config_after_toJson (c : SubnetConfig) (a b d e f g : String)
    (h1 : c.vpc_id = some a) (h2 : c.sg_id = some b) (h3 : c.igw_id = some d)
    (h4 : c.subnet_id = some e) (h5 : c.rt_id = some f)
    (h6 : c.subnet_rt_association_id = some g) :
    SubnetConfig.from_config (subnetConfigToJson c) = some c := by
  cases c with
  | mk region vpc_cidr vpc_name sg_name igw_name vpc_id sg_id igw_id
      subnet_name cidr_substitute az_postfix rt_name subnet_id rt_id assoc_id =>
    cases h1; cases h2; cases h3; cases h4; cases h5; cases h6
    simp [SubnetConfig.from_config, subnetConfigToJson, getStr, getNum,
      optJson, List.lookup]

/-! ## Claims -/

/-- C1: for every resource type tag in `{vpc, subnet}` and every name,
`_parse_config_file_name` returns
`<type>_<name-with-hyphens-replaced-by-underscores>_config.json`; it is
deterministic, and names whose hyphen-to-underscore canonical forms
differ map to distinct file names. -/
theorem naming_function_correct (t n n1 n2 : String)
    (ht : t = "vpc" ∨ t = "subnet") :
    _parse_config_file_name n t = t ++ "_" ++ pyReplaceHyphen n ++ "_config.json"
    ∧ (∀ n' t', n = n' → t = t' →
        _parse_config_file_name n t = _parse_config_file_name n' t')
    ∧ (pyReplaceHyphen n1 ≠ pyReplaceHyphen n2 →
        _parse_config_file_name n1 t ≠ _parse_config_file_name n2 t) := by
  have hl : pyLower t = t := by
    rcases ht with h | h <;> subst h <;> decide
  refine ⟨by simp [_parse_config_file_name, hl], ?_, ?_⟩
  · intro n' t' hn htt; subst hn; subst htt; rfl
  · intro hne heq
    exact hne (append_middle_cancel
      (by simpa [_parse_config_file_name] using heq))

/-- Witness for C1 at concrete inputs. -/
theorem naming_function_correct_witness :
    _parse_config_file_name "hello-world" "vpc"
      = "vpc" ++ "_" ++ pyReplaceHyphen "hello-world" ++ "_config.json"
    ∧ _parse_config_file_name "net-a" "vpc" ≠ _parse_config_file_name "net-b" "vpc" :=
  ⟨(naming_function_correct "vpc" "hello-world" "net-a" "net-b" (Or.inl rfl)).1,
   (naming_function_correct "vpc" "hello-world" "net-a" "net-b" (Or.inl rfl)).2.2
     (by decide)⟩

/-- C2: writing a fully populated record (VPC or Subnet) to its computed
file path and loading that file back yields the original record,
field for field. -/
theorem config_round_trip (fs : Fs) (c : VpcConfig) (sc : SubnetConfig)
    (a b d : String)
    (h1 : c.vpc_id = some a) (h2 : c.sg_id = some b) (h3 : c.igw_id = some d)
    (e f g p q r : String)
    (k1 : sc.vpc_id = some e) (k2 : sc.sg_id = some f) (k3 : sc.igw_id = some g)
    (k4 : sc.subnet_id = some p) (k5 : sc.rt_id = some q)
    (k6 : sc.subnet_rt_association_id = some r) :
    _load_config
        (writeFile fs (_parse_config_file_name c.vpc_name "vpc")
          (FileData.json (vpcConfigToJson c)))
        (_parse_config_file_name c.vpc_name "vpc")
      = Except.ok (some (Config.vpc c))
    ∧ _load_config
        (writeFile fs (_parse_config_file_name sc.subnet_name "subnet")
          (FileData.json (subnetConfigToJson sc)))
        (_parse_config_file_name sc.subnet_name "subnet")
      = Except.ok (some (Config.subnet sc)) := by
  constructor
  · simp [_load_config, writeFile, fname_vpc_startsWith,
      vpc_from_config_after_toJson c a b d h1 h2 h3]
  · simp [_load_config, writeFile, fname_subnet_startsWith, fname_subnet_not_vpc,
      subnet_from_config_after_toJson sc e f g p q r k1 k2 k3 k4 k5 k6]

/-- Witness for C2 at the sample records over an empty directory. -/
theorem config_round_trip_witness :
    _load_config
        (writeFile emptyFs (_parse_config_file_name sampleVpcConfig.vpc_name "vpc")
          (FileData.json (vpcConfigToJson sampleVpcConfig)))
        (_parse_config_file_name sampleVpcConfig.vpc_name "vpc")
      = Except.ok (some (Config.vpc sampleVpcConfig))
    ∧ _load_config
        (writeFile emptyFs (_parse_config_file_name sampleSubnetConfig.subnet_name "subnet")
          (FileData.json (subnetConfigToJson sampleSubnetConfig)))
        (_parse_config_file_name sampleSubnetConfig.subnet_name "subnet")
      = Except.ok (some (Config.subnet sampleSubnetConfig)) :=
  config_round_trip emptyFs sampleVpcConfig sampleSubnetConfig
    "vpc-0" "sg-0" "igw-0" rfl rfl rfl
    "vpc-0" "sg-0" "igw-0" "subnet-0" "rtb-0" "rtbassoc-0"
    rfl rfl rfl rfl rfl rfl

/-- C3: for every file name, loading fails with `NotFoundError` when the
file is absent, and with `MalformedConfigError` when the file exists but
its content is not JSON or its JSON does not match the expected record
shape. -/
theorem load_config_errors (fs : Fs) (name : String) (j : Json) :
    (fs name = none → _load_config fs name = Except.error Err.notFoundError)
    ∧ (fs name = some FileData.malformed →
        _load_config fs name = Except.error Err.malformedConfigError)
    ∧ (fs name = some (FileData.json j) → pyStartswith name "vpc" = true →
        VpcConfig.from_config j = none →
        _load_config fs name = Except.error Err.malformedConfigError)
    ∧ (fs name = some (FileData.json j) → pyStartswith name "subnet" = true →
        SubnetConfig.from_config j = none →
        _load_config fs name = Except.error Err.malformedConfigError) := by
  refine ⟨fun h => by simp [_load_config, h],
          fun h => by simp [_load_config, h],
          fun h hp hn => by simp [_load_config, h, hp, hn],
          fun h hp hn => ?_⟩
  have hv : pyStartswith name "vpc" = false := startsWith_subnet_not_vpc hp
  simp [_load_config, h, hp, hv, hn]

/-- Witness for C3: missing file, non-JSON file, and ill-shaped JSON for
both record kinds. -/
theorem load_config_errors_witness :
    _load_config emptyFs "vpc_a_config.json" = Except.error Err.notFoundError
    ∧ _load_config (writeFile emptyFs "vpc_a_config.json" FileData.malformed)
        "vpc_a_config.json" = Except.error Err.malformedConfigError
    ∧ _load_config (writeFile emptyFs "vpc_a_config.json" (FileData.json Json.null))
        "vpc_a_config.json" = Except.error Err.malformedConfigError
    ∧ _load_config (writeFile emptyFs "subnet_a_config.json" (FileData.json Json.null))
        "subnet_a_config.json" = Except.error Err.malformedConfigError :=
  ⟨(load_config_errors emptyFs "vpc_a_config.json" Json.null).1 rfl,
   (load_config_errors _ "vpc_a_config.json" Json.null).2.1 rfl,
   (load_config_errors _ "vpc_a_config.json" Json.null).2.2.1 rfl rfl rfl,
   (load_config_errors _ "subnet_a_config.json" Json.null).2.2.2 rfl rfl rfl⟩

/-- C4: when the VPC's config file does not exist, `remove-vpc` fails
with `NotFoundError`, issues zero remote calls, and leaves the file
system untouched. -/
theorem remove_vpc_missing_file (env : Env) (fs : Fs) (vpc_name : String)
    (h : fs (_parse_config_file_name vpc_name "vpc") = none) :
    remove_vpc env fs vpc_name = ⟨Except.error Err.notFoundError, [], fs⟩ := by
  simp [remove_vpc, _load_config, h]

/-- Witness for C4 on an empty directory. -/
theorem remove_vpc_missing_file_witness :
    remove_vpc okEnv emptyFs "demo" = ⟨Except.error Err.notFoundError, [], emptyFs⟩ :=
  remove_vpc_missing_file okEnv emptyFs "demo" rfl

/-- C5: when the referenced VPC's config file does not exist,
`configure-subnet` fails with `NotFoundError` before any remote call is
made (its trace is empty) and leaves the file system untouched. -/
theorem configure_subnet_missing_vpc (env : Env) (fs : Fs)
    (vpc_name subnet_name cidr_substitute az rt : String) (is_public : Bool)
    (h : fs (_parse_config_file_name vpc_name "vpc") = none) :
    configure_subnet env fs vpc_name subnet_name cidr_substitute az rt is_public
      = ⟨Except.error Err.notFoundError, [], fs⟩ := by
  simp [configure_subnet, _load_config, h]

/-- Witness for C5 on an empty directory. -/
theorem configure_subnet_missing_vpc_witness :
    configure_subnet okEnv emptyFs "demo" "net" "10" "a" "rt" true
      = ⟨Except.error Err.notFoundError, [], emptyFs⟩ :=
  configure_subnet_missing_vpc okEnv emptyFs "demo" "net" "10" "a" "rt" true rfl

/-- C6: the remote delete calls are issued in the exact reverse of
creation order: `remove-vpc` detaches/deletes the internet gateway, then
deletes the security group, then the VPC; `remove-subnet` deletes the
association, then the route table, then the subnet; in both cases the
sequence of targeted resources is the reverse of the corresponding
creation command's sequence. -/
theorem removal_reverse_of_creation
    (env : Env) (fs : Fs)
    (vn sn region vpc_cidr sgn igwn cs az rt : String) (is_public : Bool)
    (j js : Json) (cfg : VpcConfig) (scfg sc0 : SubnetConfig)
    (hok : ∀ c, ∃ r, env c = Except.ok r)
    (hv : fs (_parse_config_file_name vn "vpc") = some (FileData.json j))
    (hvp : VpcConfig.from_config j = some cfg)
    (hs : fs (_parse_config_file_name sn "subnet") = some (FileData.json js))
    (hsp : SubnetConfig.from_config js = some scfg)
    (hmk : SubnetConfig.mk_checked cfg sn cs az rt = Except.ok sc0) :
    (remove_vpc env fs vn).calls
        = [RemoteCall.delete_internet_gateway cfg,
           RemoteCall.delete_security_group cfg, RemoteCall.delete_vpc cfg]
    ∧ (remove_subnet env fs sn).calls
        = [RemoteCall.delete_subnet_route_table_association scfg,
           RemoteCall.delete_route_table scfg, RemoteCall.delete_subnet scfg]
    ∧ (remove_vpc env fs vn).calls.map RemoteCall.target
        = ((configure_vpc env fs region vpc_cidr vn sgn igwn).calls.map
            RemoteCall.target).reverse
    ∧ (remove_subnet env fs sn).calls.map RemoteCall.target
        = ((configure_subnet env fs vn sn cs az rt is_public).calls.map
            RemoteCall.target).reverse := by
  obtain ⟨r1, h1⟩ := hok (RemoteCall.delete_internet_gateway cfg)
  obtain ⟨r2, h2⟩ := hok (RemoteCall.delete_security_group cfg)
  obtain ⟨r3, h3⟩ := hok (RemoteCall.delete_vpc cfg)
  obtain ⟨r4, h4⟩ := hok (RemoteCall.delete_subnet_route_table_association scfg)
  obtain ⟨r5, h5⟩ := hok (RemoteCall.delete_route_table scfg)
  obtain ⟨r6, h6⟩ := hok (RemoteCall.delete_subnet scfg)
  obtain ⟨i1, g1⟩ := hok (RemoteCall.create_vpc
    { region := region, vpc_cidr := vpc_cidr, vpc_name := vn,
      sg_name := sgn, igw_name := igwn })
  obtain ⟨i2, g2⟩ := hok (RemoteCall.create_vpc_security_group
    { region := region, vpc_cidr := vpc_cidr, vpc_name := vn,
      sg_name := sgn, igw_name := igwn, vpc_id := some i1 })
  obtain ⟨i3, g3⟩ := hok (RemoteCall.create_internet_gateway
    { region := region, vpc_cidr := vpc_cidr, vpc_name := vn,
      sg_name := sgn, igw_name := igwn, vpc_id := some i1, sg_id := some i2 })
  obtain ⟨i4, g4⟩ := hok (RemoteCall.create_subnet sc0)
  obtain ⟨i5, g5⟩ := hok (RemoteCall.create_route_table
    { sc0 with subnet_id := some i4 } is_public)
  obtain ⟨i6, g6⟩ := hok (RemoteCall.create_subnet_route_table_association
    { sc0 with subnet_id := some i4, rt_id := some i5 })
  refine ⟨?_, ?_, ?_, ?_⟩
  · simp [remove_vpc, _load_config, hv, hvp, fname_vpc_startsWith, h1, h2, h3]
  · simp [remove_subnet, _load_config, hs, hsp, fname_subnet_startsWith,
      fname_subnet_not_vpc, h4, h5, h6]
  · simp [remove_vpc, configure_vpc, _load_config, hv, hvp,
      fname_vpc_startsWith, h1, h2, h3, g1, g2, g3, RemoteCall.target]
  · simp [remove_subnet, configure_subnet, _load_config, hv, hvp, hs, hsp,
      fname_vpc_startsWith, fname_subnet_startsWith, fname_subnet_not_vpc,
      hmk, h4, h5, h6, g4, g5, g6, RemoteCall.target]

/-- Witness for C6 on the sample directory with an all-succeeding
environment. -/
theorem removal_reverse_of_creation_witness :
    (remove_vpc okEnv sampleFs "hello-world").calls
        = [RemoteCall.delete_internet_gateway sampleVpcConfig,
           RemoteCall.delete_security_group sampleVpcConfig,
           RemoteCall.delete_vpc sampleVpcConfig]
    ∧ (remove_subnet okEnv sampleFs "hello-subnet").calls
        = [RemoteCall.delete_subnet_route_table_association sampleSubnetConfig,
           RemoteCall.delete_route_table sampleSubnetConfig,
           RemoteCall.delete_subnet sampleSubnetConfig]
    ∧ (remove_vpc okEnv sampleFs "hello-world").calls.map RemoteCall.target
        = ((configure_vpc okEnv sampleFs "ap-northeast-2" "172.16.0.0/16"
            "hello-world" "hello-sg" "hello-igw").calls.map
            RemoteCall.target).reverse
    ∧ (remove_subnet okEnv sampleFs "hello-subnet").calls.map RemoteCall.target
        = ((configure_subnet okEnv sampleFs "hello-world" "hello-subnet"
            "10" "a" "hello-rt" true).calls.map RemoteCall.target).reverse :=
  removal_reverse_of_creation okEnv sampleFs "hello-world" "hello-subnet"
    "ap-northeast-2" "172.16.0.0/16" "hello-sg" "hello-igw" "10" "a" "hello-rt"
    true (vpcConfigToJson sampleVpcConfig) (subnetConfigToJson sampleSubnetConfig)
    sampleVpcConfig sampleSubnetConfig sampleSubnetBase
    (fun _ => ⟨"id-0", rfl⟩) rfl rfl rfl rfl rfl

/-- C7: for both removal commands the local config file is deleted only
after all remote delete calls succeed: whichever delete call fails, the
command surfaces that error, issues no further or repeated calls, and
returns the file system unchanged; on success the file is removed. -/
theorem removal_file_deleted_last
    (env : Env) (fs : Fs) (vn sn : String) (j js : Json)
    (cfg : VpcConfig) (scfg : SubnetConfig)
    (hv : fs (_parse_config_file_name vn "vpc") = some (FileData.json j))
    (hvp : VpcConfig.from_config j = some cfg)
    (hs : fs (_parse_config_file_name sn "subnet") = some (FileData.json js))
    (hsp : SubnetConfig.from_config js = some scfg) :
    (∀ e, env (RemoteCall.delete_internet_gateway cfg) = Except.error e →
        remove_vpc env fs vn
          = ⟨Except.error (Err.remoteAPIError e),
             [RemoteCall.delete_internet_gateway cfg], fs⟩)
    ∧ (∀ r1 e, env (RemoteCall.delete_internet_gateway cfg) = Except.ok r1 →
        env (RemoteCall.delete_security_group cfg) = Except.error e →
        remove_vpc env fs vn
          = ⟨Except.error (Err.remoteAPIError e),
             [RemoteCall.delete_internet_gateway cfg,
              RemoteCall.delete_security_group cfg], fs⟩)
    ∧ (∀ r1 r2 e, env (RemoteCall.delete_internet_gateway cfg) = Except.ok r1 →
        env (RemoteCall.delete_security_group cfg) = Except.ok r2 →
        env (RemoteCall.delete_vpc cfg) = Except.error e →
        remove_vpc env fs vn
          = ⟨Except.error (Err.remoteAPIError e),
             [RemoteCall.delete_internet_gateway cfg,
              RemoteCall.delete_security_group cfg,
              RemoteCall.delete_vpc cfg], fs⟩)
    ∧ (∀ r1 r2 r3, env (RemoteCall.delete_internet_gateway cfg) = Except.ok r1 →
        env (RemoteCall.delete_security_group cfg) = Except.ok r2 →
        env (RemoteCall.delete_vpc cfg) = Except.ok r3 →
        remove_vpc env fs vn
          = ⟨Except.ok (),
             [RemoteCall.delete_internet_gateway cfg,
              RemoteCall.delete_security_group cfg,
              RemoteCall.delete_vpc cfg],
             removeFile fs (_parse_config_file_name vn "vpc")⟩)
    ∧ (∀ e, env (RemoteCall.delete_subnet_route_table_association scfg)
          = Except.error e →
        remove_subnet env fs sn
          = ⟨Except.error (Err.remoteAPIError e),
             [RemoteCall.delete_subnet_route_table_association scfg], fs⟩)
    ∧ (∀ r1 e, env (RemoteCall.delete_subnet_route_table_association scfg)
          = Except.ok r1 →
        env (RemoteCall.delete_route_table scfg) = Except.error e →
        remove_subnet env fs sn
          = ⟨Except.error (Err.remoteAPIError e),
             [RemoteCall.delete_subnet_route_table_association scfg,
              RemoteCall.delete_route_table scfg], fs⟩)
    ∧ (∀ r1 r2 e, env (RemoteCall.delete_subnet_route_table_association scfg)
          = Except.ok r1 →
        env (RemoteCall.delete_route_table scfg) = Except.ok r2 →
        env (RemoteCall.delete_subnet scfg) = Except.error e →
        remove_subnet env fs sn
          = ⟨Except.error (Err.remoteAPIError e),
             [RemoteCall.delete_subnet_route_table_association scfg,
              RemoteCall.delete_route_table scfg,
              RemoteCall.delete_subnet scfg], fs⟩)
    ∧ (∀ r1 r2 r3, env (RemoteCall.delete_subnet_route_table_association scfg)
          = Except.ok r1 →
        env (RemoteCall.delete_route_table scfg) = Except.ok r2 →
        env (RemoteCall.delete_subnet scfg) = Except.ok r3 →
        remove_subnet env fs sn
          = ⟨Except.ok (),
             [RemoteCall.delete_subnet_route_table_association scfg,
              RemoteCall.delete_route_table scfg,
              RemoteCall.delete_subnet scfg],
             removeFile fs (_parse_config_file_name sn "subnet")⟩) := by
  refine ⟨fun e h1 => ?_, fun r1 e h1 h2 => ?_, fun r1 r2 e h1 h2 h3 => ?_,
          fun r1 r2 r3 h1 h2 h3 => ?_,
          fun e h1 => ?_, fun r1 e h1 h2 => ?_, fun r1 r2 e h1 h2 h3 => ?_,
          fun r1 r2 r3 h1 h2 h3 => ?_⟩ <;>
    first
      | simp [remove_vpc, _load_config, hv, hvp, fname_vpc_startsWith,
          h1, h2, h3]
      | simp [remove_vpc, _load_config, hv, hvp, fname_vpc_startsWith, h1, h2]
      | simp [remove_vpc, _load_config, hv, hvp, fname_vpc_startsWith, h1]
      | simp [remove_subnet, _load_config, hs, hsp, fname_subnet_startsWith,
          fname_subnet_not_vpc, h1, h2, h3]
      | simp [remove_subnet, _load_config, hs, hsp, fname_subnet_startsWith,
          fname_subnet_not_vpc, h1, h2]
      | simp [remove_subnet, _load_config, hs, hsp, fname_subnet_startsWith,
          fname_subnet_not_vpc, h1]

/-- Witness for C7: a failing first delete leaves the sample directory
untouched; an all-succeeding run removes the config file. -/
theorem removal_file_deleted_last_witness :
    remove_vpc errEnv sampleFs "hello-world"
      = ⟨Except.error (Err.remoteAPIError "boom"),
         [RemoteCall.delete_internet_gateway sampleVpcConfig], sampleFs⟩
    ∧ remove_vpc okEnv sampleFs "hello-world"
      = ⟨Except.ok (),
         [RemoteCall.delete_internet_gateway sampleVpcConfig,
          RemoteCall.delete_security_group sampleVpcConfig,
          RemoteCall.delete_vpc sampleVpcConfig],
         removeFile sampleFs (_parse_config_file_name "hello-world" "vpc")⟩
    ∧ remove_subnet errEnv sampleFs "hello-subnet"
      = ⟨Except.error (Err.remoteAPIError "boom"),
         [RemoteCall.delete_subnet_route_table_association sampleSubnetConfig],
         sampleFs⟩
    ∧ remove_subnet okEnv sampleFs "hello-subnet"
      = ⟨Except.ok (),
         [RemoteCall.delete_subnet_route_table_association sampleSubnetConfig,
          RemoteCall.delete_route_table sampleSubnetConfig,
          RemoteCall.delete_subnet sampleSubnetConfig],
         removeFile sampleFs (_parse_config_file_name "hello-subnet" "subnet")⟩ :=
  ⟨(removal_file_deleted_last errEnv sampleFs "hello-world" "hello-subnet"
      (vpcConfigToJson sampleVpcConfig) (subnetConfigToJson sampleSubnetConfig)
      sampleVpcConfig sampleSubnetConfig rfl rfl rfl rfl).1 "boom" rfl,
   (removal_file_deleted_last okEnv sampleFs "hello-world" "hello-subnet"
      (vpcConfigToJson sampleVpcConfig) (subnetConfigToJson sampleSubnetConfig)
      sampleVpcConfig sampleSubnetConfig rfl rfl rfl rfl).2.2.2.1
      "id-0" "id-0" "id-0" rfl rfl rfl,
   (removal_file_deleted_last errEnv sampleFs "hello-world" "hello-subnet"
      (vpcConfigToJson sampleVpcConfig) (subnetConfigToJson sampleSubnetConfig)
      sampleVpcConfig sampleSubnetConfig rfl rfl rfl rfl).2.2.2.2.1 "boom" rfl,
   (removal_file_deleted_last okEnv sampleFs "hello-world" "hello-subnet"
      (vpcConfigToJson sampleVpcConfig) (subnetConfigToJson sampleSubnetConfig)
      sampleVpcConfig sampleSubnetConfig rfl rfl rfl rfl).2.2.2.2.2.2.2
      "id-0" "id-0" "id-0" rfl rfl rfl⟩

/-- C8: the remote create calls are issued strictly sequentially, each
returned identifier captured into the record before the next call: the
security-group call receives the record already holding the VPC id, the
internet-gateway call the record holding VPC and security-group ids;
likewise the route-table call sees the subnet id and the association call
the subnet and route-table ids. -/
theorem creation_sequential_capture
    (env : Env) (fs : Fs)
    (region vpc_cidr vn sgn igwn sn cs az rt : String) (is_public : Bool)
    (i1 i2 i3 i4 i5 i6 : String) (j : Json) (vcfg : VpcConfig)
    (sc0 : SubnetConfig)
    (h1 : env (RemoteCall.create_vpc
        { region := region, vpc_cidr := vpc_cidr, vpc_name := vn,
          sg_name := sgn, igw_name := igwn }) = Except.ok i1)
    (h2 : env (RemoteCall.create_vpc_security_group
        { region := region, vpc_cidr := vpc_cidr, vpc_name := vn,
          sg_name := sgn, igw_name := igwn, vpc_id := some i1 })
        = Except.ok i2)
    (h3 : env (RemoteCall.create_internet_gateway
        { region := region, vpc_cidr := vpc_cidr, vpc_name := vn,
          sg_name := sgn, igw_name := igwn, vpc_id := some i1,
          sg_id := some i2 }) = Except.ok i3)
    (hv : fs (_parse_config_file_name vn "vpc") = some (FileData.json j))
    (hvp : VpcConfig.from_config j = some vcfg)
    (hmk : SubnetConfig.mk_checked vcfg sn cs az rt = Except.ok sc0)
    (h4 : env (RemoteCall.create_subnet sc0) = Except.ok i4)
    (h5 : env (RemoteCall.create_route_table
        { sc0 with subnet_id := some i4 } is_public) = Except.ok i5)
    (h6 : env (RemoteCall.create_subnet_route_table_association
        { sc0 with subnet_id := some i4, rt_id := some i5 })
        = Except.ok i6) :
    (configure_vpc env fs region vpc_cidr vn sgn igwn).calls
      = [RemoteCall.create_vpc
           { region := region, vpc_cidr := vpc_cidr, vpc_name := vn,
             sg_name := sgn, igw_name := igwn },
         RemoteCall.create_vpc_security_group
           { region := region, vpc_cidr := vpc_cidr, vpc_name := vn,
             sg_name := sgn, igw_name := igwn, vpc_id := some i1 },
         RemoteCall.create_internet_gateway
           { region := region, vpc_cidr := vpc_cidr, vpc_name := vn,
             sg_name := sgn, igw_name := igwn, vpc_id := some i1,
             sg_id := some i2 }]
    ∧ (configure_vpc env fs region vpc_cidr vn sgn igwn).result
      = Except.ok
          { region := region, vpc_cidr := vpc_cidr, vpc_name := vn,
            sg_name := sgn, igw_name := igwn, vpc_id := some i1,
            sg_id := some i2, igw_id := some i3 }
    ∧ (configure_subnet env fs vn sn cs az rt is_public).calls
      = [RemoteCall.create_subnet sc0,
         RemoteCall.create_route_table { sc0 with subnet_id := some i4 }
           is_public,
         RemoteCall.create_subnet_route_table_association
           { sc0 with subnet_id := some i4, rt_id := some i5 }]
    ∧ (configure_subnet env fs vn sn cs az rt is_public).result
      = Except.ok
          { sc0 with
            subnet_id := some i4, rt_id := some i5,
            subnet_rt_association_id := some i6 } := by
  refine ⟨?_, ?_, ?_, ?_⟩ <;>
    simp [configure_vpc, configure_subnet, _load_config, hv, hvp,
      fname_vpc_startsWith, hmk, h1, h2, h3, h4, h5, h6]

/-- Witness for C8 with the all-succeeding environment over the sample
directory. -/
theorem creation_sequential_capture_witness :
    (configure_vpc okEnv sampleFs "ap-northeast-2" "172.16.0.0/16"
        "hello-world" "hello-sg" "hello-igw").calls
      = [RemoteCall.create_vpc
           { region := "ap-northeast-2", vpc_cidr := "172.16.0.0/16",
             vpc_name := "hello-world", sg_name := "hello-sg",
             igw_name := "hello-igw" },
         RemoteCall.create_vpc_security_group
           { region := "ap-northeast-2", vpc_cidr := "172.16.0.0/16",
             vpc_name := "hello-world", sg_name := "hello-sg",
             igw_name := "hello-igw", vpc_id := some "id-0" },
         RemoteCall.create_internet_gateway
           { region := "ap-northeast-2", vpc_cidr := "172.16.0.0/16",
             vpc_name := "hello-world", sg_name := "hello-sg",
             igw_name := "hello-igw", vpc_id := some "id-0",
             sg_id := some "id-0" }]
    ∧ (configure_vpc okEnv sampleFs "ap-northeast-2" "172.16.0.0/16"
        "hello-world" "hello-sg" "hello-igw").result
      = Except.ok
          { region := "ap-northeast-2", vpc_cidr := "172.16.0.0/16",
            vpc_name := "hello-world", sg_name := "hello-sg",
            igw_name := "hello-igw", vpc_id := some "id-0",
            sg_id := some "id-0", igw_id := some "id-0" }
    ∧ (configure_subnet okEnv sampleFs "hello-world" "hello-subnet" "10"
        "a" "hello-rt" true).calls
      = [RemoteCall.create_subnet sampleSubnetBase,
         RemoteCall.create_route_table
           { sampleSubnetBase with subnet_id := some "id-0" } true,
         RemoteCall.create_subnet_route_table_association
           { sampleSubnetBase with
             subnet_id := some "id-0", rt_id := some "id-0" }]
    ∧ (configure_subnet okEnv sampleFs "hello-world" "hello-subnet" "10"
        "a" "hello-rt" true).result
      = Except.ok
          { sampleSubnetBase with
            subnet_id := some "id-0", rt_id := some "id-0",
            subnet_rt_association_id := some "id-0" } :=
  creation_sequential_capture okEnv sampleFs "ap-northeast-2" "172.16.0.0/16"
    "hello-world" "hello-sg" "hello-igw" "hello-subnet" "10" "a" "hello-rt"
    true "id-0" "id-0" "id-0" "id-0" "id-0" "id-0"
    (vpcConfigToJson sampleVpcConfig) sampleVpcConfig sampleSubnetBase
    rfl rfl rfl rfl rfl rfl rfl rfl rfl

/-- A successfully constructed Subnet Record has its CIDR substitute in
the range 5–254. -/
theorem mk_checked_ok_range (v : VpcConfig) (a b c d : String)
    (sc0 : SubnetConfig)
    (h : SubnetConfig.mk_checked v a b c d = Except.ok sc0) :
    5 ≤ sc0.cidr_substitute ∧ sc0.cidr_substitute ≤ 254 := by
  unfold SubnetConfig.mk_checked at h
  cases hp : pyToInt? b with
  | none => rw [hp] at h; exact absurd h (by simp)
  | some n =>
    rw [hp] at h
    dsimp only at h
    by_cases hr : 5 ≤ n ∧ n ≤ 254
    · rw [if_pos hr] at h
      cases h
      exact hr
    · rw [if_neg hr] at h
      exact absurd h (by simp)

/-- Constructing a Subnet Record from a CIDR substitute that is not an
integer in 5–254 fails. -/
theorem mk_checked_bad (v : VpcConfig) (a b c d : String)
    (hbad : ∀ n : Int, pyToInt? b = some n → ¬(5 ≤ n ∧ n ≤ 254)) :
    SubnetConfig.mk_checked v a b c d = Except.error Err.invalidParameter := by
  unfold SubnetConfig.mk_checked
  cases hp : pyToInt? b with
  | none => rfl
  | some n =>
    dsimp only
    rw [if_neg (hbad n hp)]

/-- `configure-vpc` either fails on a remote call and leaves the file
system untouched, or succeeds and writes exactly the fully populated
record it returns, to the VPC's computed file path. -/
theorem configure_vpc_spec (env : Env) (fs : Fs)
    (region vpc_cidr vn sgn igwn : String) :
    (∃ e calls, configure_vpc env fs region vpc_cidr vn sgn igwn
        = ⟨Except.error (Err.remoteAPIError e), calls, fs⟩)
    ∨ (∃ i1 i2 i3,
        configure_vpc env fs region vpc_cidr vn sgn igwn
          = ⟨Except.ok
               { region := region, vpc_cidr := vpc_cidr, vpc_name := vn,
                 sg_name := sgn, igw_name := igwn, vpc_id := some i1,
                 sg_id := some i2, igw_id := some i3 },
             [RemoteCall.create_vpc
                { region := region, vpc_cidr := vpc_cidr, vpc_name := vn,
                  sg_name := sgn, igw_name := igwn },
              RemoteCall.create_vpc_security_group
                { region := region, vpc_cidr := vpc_cidr, vpc_name := vn,
                  sg_name := sgn, igw_name := igwn, vpc_id := some i1 },
              RemoteCall.create_internet_gateway
                { region := region, vpc_cidr := vpc_cidr, vpc_name := vn,
                  sg_name := sgn, igw_name := igwn, vpc_id := some i1,
                  sg_id := some i2 }],
             writeFile fs (_parse_config_file_name vn "vpc")
               (FileData.json (vpcConfigToJson
                 { region := region, vpc_cidr := vpc_cidr, vpc_name := vn,
                   sg_name := sgn, igw_name := igwn, vpc_id := some i1,
                   sg_id := some i2, igw_id := some i3 }))⟩) := by
  cases h1 : env (RemoteCall.create_vpc
      { region := region, vpc_cidr := vpc_cidr, vpc_name := vn,
        sg_name := sgn, igw_name := igwn }) with
  | error e =>
    refine Or.inl ⟨e, [RemoteCall.create_vpc
      { region := region, vpc_cidr := vpc_cidr, vpc_name := vn,
        sg_name := sgn, igw_name := igwn }], ?_⟩
    simp [configure_vpc, h1]
  | ok i1 =>
  cases h2 : env (RemoteCall.create_vpc_security_group
      { region := region, vpc_cidr := vpc_cidr, vpc_name := vn,
        sg_name := sgn, igw_name := igwn, vpc_id := some i1 }) with
  | error e =>
    refine Or.inl ⟨e, [RemoteCall.create_vpc
      { region := region, vpc_cidr := vpc_cidr, vpc_name := vn,
        sg_name := sgn, igw_name := igwn },
      RemoteCall.create_vpc_security_group
      { region := region, vpc_cidr := vpc_cidr, vpc_name := vn,
        sg_name := sgn, igw_name := igwn, vpc_id := some i1 }], ?_⟩
    simp [configure_vpc, h1, h2]
  | ok i2 =>
  cases h3 : env (RemoteCall.create_internet_gateway
      { region := region, vpc_cidr := vpc_cidr, vpc_name := vn,
        sg_name := sgn, igw_name := igwn, vpc_id := some i1,
        sg_id := some i2 }) with
  | error e =>
    refine Or.inl ⟨e, [RemoteCall.create_vpc
      { region := region, vpc_cidr := vpc_cidr, vpc_name := vn,
        sg_name := sgn, igw_name := igwn },
      RemoteCall.create_vpc_security_group
      { region := region, vpc_cidr := vpc_cidr, vpc_name := vn,
        sg_name := sgn, igw_name := igwn, vpc_id := some i1 },
      RemoteCall.create_internet_gateway
      { region := region, vpc_cidr := vpc_cidr, vpc_name := vn,
        sg_name := sgn, igw_name := igwn, vpc_id := some i1,
        sg_id := some i2 }], ?_⟩
    simp [configure_vpc, h1, h2, h3]
  | ok i3 => exact Or.inr ⟨i1, i2, i3, by simp [configure_vpc, h1, h2, h3]⟩

/-- `configure-subnet` either fails (missing or ill-shaped parent record,
rejected CIDR substitute, or a failing remote call) and leaves the file
system untouched, or succeeds with a record built by the checked
constructor and writes exactly the fully populated record it returns. -/
theorem configure_subnet_spec (env : Env) (fs : Fs)
    (vn sn cs az rt : String) (is_public : Bool) :
    (∃ e calls, configure_subnet env fs vn sn cs az rt is_public
        = ⟨Except.error e, calls, fs⟩)
    ∨ (∃ vcfg sc0 i4 i5 i6,
        SubnetConfig.mk_checked vcfg sn cs az rt = Except.ok sc0
        ∧ configure_subnet env fs vn sn cs az rt is_public
          = ⟨Except.ok
               { sc0 with
                 subnet_id := some i4, rt_id := some i5,
                 subnet_rt_association_id := some i6 },
             [RemoteCall.create_subnet sc0,
              RemoteCall.create_route_table
                { sc0 with subnet_id := some i4 } is_public,
              RemoteCall.create_subnet_route_table_association
                { sc0 with subnet_id := some i4, rt_id := some i5 }],
             writeFile fs (_parse_config_file_name sn "subnet")
               (FileData.json (subnetConfigToJson
                 { sc0 with
                   subnet_id := some i4, rt_id := some i5,
                   subnet_rt_association_id := some i6 }))⟩) := by
  cases hl : _load_config fs (_parse_config_file_name vn "vpc") with
  | error e => exact Or.inl ⟨e, [], by simp [configure_subnet, hl]⟩
  | ok cfg? =>
  match cfg? with
  | none =>
    exact Or.inl ⟨Err.malformedConfigError, [], by simp [configure_subnet, hl]⟩
  | some (Config.subnet s) =>
    exact Or.inl ⟨Err.malformedConfigError, [], by simp [configure_subnet, hl]⟩
  | some (Config.vpc vcfg) =>
  cases hm : SubnetConfig.mk_checked vcfg sn cs az rt with
  | error e => exact Or.inl ⟨e, [], by simp [configure_subnet, hl, hm]⟩
  | ok sc0 =>
  cases h4 : env (RemoteCall.create_subnet sc0) with
  | error e =>
    exact Or.inl ⟨Err.remoteAPIError e, [RemoteCall.create_subnet sc0],
      by simp [configure_subnet, hl, hm, h4]⟩
  | ok i4 =>
  cases h5 : env (RemoteCall.create_route_table
      { sc0 with subnet_id := some i4 } is_public) with
  | error e =>
    exact Or.inl ⟨Err.remoteAPIError e,
      [RemoteCall.create_subnet sc0,
       RemoteCall.create_route_table { sc0 with subnet_id := some i4 }
         is_public],
      by simp [configure_subnet, hl, hm, h4, h5]⟩
  | ok i5 =>
  cases h6 : env (RemoteCall.create_subnet_route_table_association
      { sc0 with subnet_id := some i4, rt_id := some i5 }) with
  | error e =>
    exact Or.inl ⟨Err.remoteAPIError e,
      [RemoteCall.create_subnet sc0,
       RemoteCall.create_route_table { sc0 with subnet_id := some i4 }
         is_public,
       RemoteCall.create_subnet_route_table_association
         { sc0 with subnet_id := some i4, rt_id := some i5 }],
      by simp [configure_subnet, hl, hm, h4, h5, h6]⟩
  | ok i6 =>
    exact Or.inr ⟨vcfg, sc0, i4, i5, i6, hm,
      by simp [configure_subnet, hl, hm, h4, h5, h6]⟩

/-- C9: the CIDR-octet substitute of every Subnet Record produced by
`configure-subnet` is an integer in 5–254; an invocation whose
`cidr_substitute` is not an integer in that range produces no Subnet
Record and leaves the file system untouched. -/
theorem cidr_substitute_constrained
    (env : Env) (fs : Fs) (vn sn cs az rt : String) (is_public : Bool)
    (sc : SubnetConfig)
    (env' : Env) (fs' : Fs) (vn' sn' cs' az' rt' : String) (is_public' : Bool)
    (hsc : (configure_subnet env fs vn sn cs az rt is_public).result
      = Except.ok sc)
    (hbad : ∀ n : Int, pyToInt? cs' = some n → ¬(5 ≤ n ∧ n ≤ 254)) :
    (5 ≤ sc.cidr_substitute ∧ sc.cidr_substitute ≤ 254)
    ∧ (configure_subnet env' fs' vn' sn' cs' az' rt' is_public').fs = fs'
    ∧ ∀ sc', (configure_subnet env' fs' vn' sn' cs' az' rt' is_public').result
        ≠ Except.ok sc' := by
  refine ⟨?_, ?_, ?_⟩
  · rcases configure_subnet_spec env fs vn sn cs az rt is_public with
      ⟨e, calls, heq⟩ | ⟨vcfg, sc0, i4, i5, i6, hm, heq⟩
    · rw [heq] at hsc; simp at hsc
    · rw [heq] at hsc
      simp only [Except.ok.injEq] at hsc
      have hr := mk_checked_ok_range vcfg sn cs az rt sc0 hm
      rw [← hsc]
      simpa using hr
  · rcases configure_subnet_spec env' fs' vn' sn' cs' az' rt' is_public' with
      ⟨e, calls, heq⟩ | ⟨vcfg, sc0, i4, i5, i6, hm, heq⟩
    · rw [heq]
    · exact absurd hm (by simp [mk_checked_bad vcfg sn' cs' az' rt' hbad])
  · intro sc'
    rcases configure_subnet_spec env' fs' vn' sn' cs' az' rt' is_public' with
      ⟨e, calls, heq⟩ | ⟨vcfg, sc0, i4, i5, i6, hm, heq⟩
    · rw [heq]; simp
    · exact absurd hm (by simp [mk_checked_bad vcfg sn' cs' az' rt' hbad])

/-- Witness for C9: a valid run with substitute `"10"`, and a rejected
run with substitute `"300"` over the sample directory. -/
theorem cidr_substitute_constrained_witness :
    (5 ≤ (sampleSubnetBase : SubnetConfig).cidr_substitute
      ∧ (sampleSubnetBase : SubnetConfig).cidr_substitute ≤ 254)
    ∧ (configure_subnet okEnv sampleFs "hello-world" "hello-subnet" "300"
        "a" "hello-rt" true).fs = sampleFs
    ∧ ∀ sc', (configure_subnet okEnv sampleFs "hello-world" "hello-subnet"
        "300" "a" "hello-rt" true).result ≠ Except.ok sc' := by
  have h := cidr_substitute_constrained okEnv sampleFs "hello-world"
    "hello-subnet" "10" "a" "hello-rt" true
    { sampleSubnetBase with
      subnet_id := some "id-0", rt_id := some "id-0",
      subnet_rt_association_id := some "id-0" }
    okEnv sampleFs "hello-world" "hello-subnet" "300" "a" "hello-rt" true
    rfl
    (fun n hn => by
      have hn' : n = 300 := by
        have : pyToInt? "300" = some 300 := rfl
        rw [this] at hn
        exact (Option.some.inj hn.symm)
      subst hn'
      decide)
  exact ⟨by constructor <;> decide, h.2.1, h.2.2⟩

/-- C10: for both creation commands, serialization to the JSON file
happens only after all three create calls have returned successfully; a
failing create call aborts the command with the file system unchanged,
and a successful run writes exactly the returned record. -/
theorem creation_persists_only_on_success
    (env : Env) (fs : Fs)
    (region vpc_cidr vn sgn igwn sn cs az rt : String) (is_public : Bool) :
    (∀ e, (configure_vpc env fs region vpc_cidr vn sgn igwn).result
        = Except.error e →
      (configure_vpc env fs region vpc_cidr vn sgn igwn).fs = fs)
    ∧ (∀ cfg, (configure_vpc env fs region vpc_cidr vn sgn igwn).result
        = Except.ok cfg →
      (configure_vpc env fs region vpc_cidr vn sgn igwn).fs
        = writeFile fs (_parse_config_file_name vn "vpc")
            (FileData.json (vpcConfigToJson cfg)))
    ∧ (∀ e, (configure_subnet env fs vn sn cs az rt is_public).result
        = Except.error e →
      (configure_subnet env fs vn sn cs az rt is_public).fs = fs)
    ∧ (∀ sc, (configure_subnet env fs vn sn cs az rt is_public).result
        = Except.ok sc →
      (configure_subnet env fs vn sn cs az rt is_public).fs
        = writeFile fs (_parse_config_file_name sn "subnet")
            (FileData.json (subnetConfigToJson sc))) := by
  refine ⟨fun e he => ?_, fun cfg hc => ?_, fun e he => ?_, fun sc hc => ?_⟩
  · rcases configure_vpc_spec env fs region vpc_cidr vn sgn igwn with
      ⟨e', calls, heq⟩ | ⟨i1, i2, i3, heq⟩
    · rw [heq]
    · rw [heq] at he; simp at he
  · rcases configure_vpc_spec env fs region vpc_cidr vn sgn igwn with
      ⟨e', calls, heq⟩ | ⟨i1, i2, i3, heq⟩
    · rw [heq] at hc; simp at hc
    · rw [heq] at hc ⊢
      simp only [Except.ok.injEq] at hc
      rw [← hc]
  · rcases configure_subnet_spec env fs vn sn cs az rt is_public with
      ⟨e', calls, heq⟩ | ⟨vcfg, sc0, i4, i5, i6, hm, heq⟩
    · rw [heq]
    · rw [heq] at he; simp at he
  · rcases configure_subnet_spec env fs vn sn cs az rt is_public with
      ⟨e', calls, heq⟩ | ⟨vcfg, sc0, i4, i5, i6, hm, heq⟩
    · rw [heq] at hc; simp at hc
    · rw [heq] at hc ⊢
      simp only [Except.ok.injEq] at hc
      rw [← hc]

/-- Witness for C10: a failing environment leaves the directory
untouched; the all-succeeding environment writes the returned records. -/
theorem creation_persists_only_on_success_witness :
    (configure_vpc errEnv sampleFs "r" "c" "hello-world" "s" "i").fs = sampleFs
    ∧ (configure_subnet errEnv sampleFs "hello-world" "net" "10" "a" "rt"
        true).fs = sampleFs
    ∧ (configure_vpc okEnv sampleFs "r" "c" "hello-world" "s" "i").fs
      = writeFile sampleFs (_parse_config_file_name "hello-world" "vpc")
          (FileData.json (vpcConfigToJson
            { region := "r", vpc_cidr := "c", vpc_name := "hello-world",
              sg_name := "s", igw_name := "i", vpc_id := some "id-0",
              sg_id := some "id-0", igw_id := some "id-0" })) :=
  ⟨(creation_persists_only_on_success errEnv sampleFs "r" "c" "hello-world"
      "s" "i" "net" "10" "a" "rt" true).1 (Err.remoteAPIError "boom") rfl,
   (creation_persists_only_on_success errEnv sampleFs "r" "c" "hello-world"
      "s" "i" "net" "10" "a" "rt" true).2.2.1 (Err.remoteAPIError "boom") rfl,
   (creation_persists_only_on_success okEnv sampleFs "r" "c" "hello-world"
      "s" "i" "net" "10" "a" "rt" true).2.1
      { region := "r", vpc_cidr := "c", vpc_name := "hello-world",
        sg_name := "s", igw_name := "i", vpc_id := some "id-0",
        sg_id := some "id-0", igw_id := some "id-0" } rfl⟩
